import Mathlib

/-
Verification of the reload-coordination core of src/src/main.cu
(instant-ngp fork): convergence monitor, lock coordinator, reload
trigger, mode resolution and the main loop around them.

Modelling conventions:
- C++ float arithmetic is modelled over the exact rationals.  The only
  place where IEEE semantics is observable on the paths studied here is
  standardDevation applied to an empty vector, where the C++ code divides
  by zero and yields NaN; every comparison with NaN is false, which the
  model captures with an explicit emptiness test at the comparison site.
- The square root in standardDevation is eliminated: for a nonnegative
  variance v and a positive threshold t, sqrt v < t holds iff v < t^2,
  so the model compares variances against the squared threshold.
- Filesystem facts (existence of a path, whether it is a directory, its
  extension) and the outcome of the nonblocking flock call are inputs of
  the model, since they are decided by the environment at run time.
- tlog/cout emissions, marker deletion, lock acquisition and release,
  and the dataset-reload invocation are recorded as an event trace, so
  that ordering claims become statements about lists of events.
-/

attribute [local semireducible] Rat.add Rat.sub Rat.mul Rat.inv

/-- The four operating modes of ETestbedMode (testbed.h enumeration,
referenced from main.cu). -/
inductive ETestbedMode
  | Nerf
  | Sdf
  | Image
  | Volume
deriving DecidableEq

/-- Models the external helper equals_case_insensitive from
tiny-cuda-nn: the two strings are equal after characterwise lowercase
folding (std::transform with tolower). -/
def equals_case_insensitive (a b : String) : Bool :=
  a.data.map Char.toLower == b.data.map Char.toLower

/-- The facts main.cu queries about a scene path through
filesystem/path.h: whether the path exists, whether it is a directory,
and its extension (the text after the final dot).  These are
environment inputs of the model. -/
structure ScenePath where
  pathExists : Bool
  is_directory : Bool
  extension : String

/-- Mode inference from the scene path, main.cu lines 199-207:
directory or json extension gives Nerf, obj or stl gives Sdf, nvdb
gives Volume, anything else gives Image; tests are evaluated in this
order. -/
def inferMode (p : ScenePath) : ETestbedMode :=
  if p.is_directory || equals_case_insensitive p.extension "json" then
    ETestbedMode.Nerf
  else if equals_case_insensitive p.extension "obj" || equals_case_insensitive p.extension "stl" then
    ETestbedMode.Sdf
  else if equals_case_insensitive p.extension "nvdb" then
    ETestbedMode.Volume
  else
    ETestbedMode.Image

/-- Parsing of an explicit mode string, main.cu lines 209-221: the four
known names are matched case-insensitively in order; anything else is
rejected (none). -/
def parseModeString (s : String) : Option ETestbedMode :=
  if equals_case_insensitive s "nerf" then some ETestbedMode.Nerf
  else if equals_case_insensitive s "sdf" then some ETestbedMode.Sdf
  else if equals_case_insensitive s "image" then some ETestbedMode.Image
  else if equals_case_insensitive s "volume" then some ETestbedMode.Volume
  else none

/-- Labels for the three fatal startup-configuration failures of
main.cu.  The program prints a distinct diagnostic and returns 1 in
each case: "Must specify either a mode or a scene" (MissingInput),
"Scene path ... does not exist" (PathNotFound), "Mode must be one
of ..." (InvalidMode). -/
inductive ConfigError
  | InvalidMode
  | MissingInput
  | PathNotFound
deriving DecidableEq

deriving instance DecidableEq for Except

/-- Mode determination, main.cu lines 186-222: with no explicit mode, a
scene is required and must exist, and the mode is inferred from it;
with an explicit mode string, the string must be one of the four known
names. -/
def resolveModePhase (mode_flag : Option String) (scene_flag : Option ScenePath) :
    Except ConfigError ETestbedMode :=
  match mode_flag with
  | none =>
    match scene_flag with
    | none => Except.error ConfigError.MissingInput
    | some p =>
      if p.pathExists then Except.ok (inferMode p)
      else Except.error ConfigError.PathNotFound
  | some s =>
    match parseModeString s with
    | some m => Except.ok m
    | none => Except.error ConfigError.InvalidMode

/-- Scene existence re-check before load_training_data, main.cu lines
226-231: when a scene was supplied it must exist. -/
def sceneCheckPhase (scene_flag : Option ScenePath) (m : ETestbedMode) :
    Except ConfigError ETestbedMode :=
  match scene_flag with
  | some p =>
    if p.pathExists then Except.ok m
    else Except.error ConfigError.PathNotFound
  | none => Except.ok m

/-- The whole fatal-configuration phase of main.cu that runs before the
training loop: mode determination followed by the scene existence
check. -/
def resolveStartup (mode_flag : Option String) (scene_flag : Option ScenePath) :
    Except ConfigError ETestbedMode :=
  (resolveModePhase mode_flag scene_flag).bind (sceneCheckPhase scene_flag)

/-- Whether the startup phase failed. -/
def isErr : Except ConfigError ETestbedMode → Bool
  | Except.error _ => true
  | Except.ok _ => false

/-- Exit code of the startup phase: every error branch of main.cu in
lines 186-231 executes return 1; otherwise the loop is reached (exit
code 0 models the eventual normal fall-through return of main). -/
def startupExitCode (mode_flag : Option String) (scene_flag : Option ScenePath) : Int :=
  match resolveStartup mode_flag scene_flag with
  | Except.error _ => 1
  | Except.ok _ => 0

/-- releaseLock operates on the file-descriptor table of the process;
the table is modelled as the list of open descriptors, and close
removes a descriptor from it. -/
def closeFd (openFds : List Int) (fd : Int) : List Int :=
  openFds.filter (fun x => x ≠ fd)

/-- releaseLock from main.cu lines 56-59: a negative descriptor (the
not-held handle returned by a failed tryGetLock) returns immediately;
otherwise the descriptor is closed, which drops the advisory flock.
The C function returns void and can not raise, which the model reflects
by being a total function into the new descriptor table. -/
def releaseLock (fd : Int) (openFds : List Int) : List Int :=
  if fd < 0 then openFds else closeFd openFds fd

/-- Population standard deviation squared of standardDevation, main.cu
lines 61-70: accumulate the sum, divide by the size for the mean,
subtract the mean pointwise, sum the squares of the differences and
divide by the size.  The C++ function returns the square root of this
value; comparisons sqrt x < t are modelled as x < t^2 (valid since the
value is a mean of squares, hence nonnegative, and the threshold used
is positive).  On an empty vector the C++ code divides by zero and
returns NaN; use sites guard that case explicitly. -/
def standardDevationSq (v : List ℚ) : ℚ :=
  let sum := v.sum
  let mean := sum / (v.length : ℚ)
  let diff := v.map (fun x => x - mean)
  let sq_sum := (diff.map (fun x => x * x)).sum
  sq_sum / (v.length : ℚ)

/-- Models the comparison standardDevation v < t of main.cu line 301
for a positive threshold t: on the empty vector standardDevation is
NaN (division by zero) and the comparison is false; otherwise
sqrt (standardDevationSq v) < t iff standardDevationSq v < t^2. -/
def standardDevationLt (v : List ℚ) (t : ℚ) : Bool :=
  !v.isEmpty && decide (standardDevationSq v < t ^ 2)

/-- First differences of the loss window, main.cu lines 295-297:
subvector_left drops the last element, subvector_right drops the
first, and the transform overwrites subvector_right with the pointwise
difference right minus left, giving v[i+1] - v[i] for each i.  (For an
empty window the C++ iterator arithmetic is undefined; the model
returns the empty list, which yields a false verdict downstream either
way.) -/
def firstDiffs (v : List ℚ) : List ℚ :=
  List.zipWith (fun r l => r - l) v.tail v

/-- The convergence-monitor part of the condition on main.cu line 301:
the number of samples ever recorded exceeds the current size of the
loss window, and the standard deviation of the first differences of
the window is below 0.10. -/
def monitorStable (samples : ℕ) (graph : List ℚ) : Bool :=
  decide (samples > graph.length) && standardDevationLt (firstDiffs graph) (1 / 10)

/-- Modelled from the spec: LossHistory (the loss-graph container of
the external testbed, declared in testbed.h which is outside the
excerpt).  Per the specification it is a ring buffer of fixed capacity
holding the most recently recorded loss samples, with the oldest
evicted on overflow, so the window holds min samples capacity entries:
before the buffer first fills the window length equals the number of
samples recorded, and afterwards it equals the capacity. -/
structure LossHistory where
  capacity : ℕ
  samples : ℕ
  window : List ℚ
  ring_inv : window.length = min samples capacity

/-- The stability verdict of the monitor on a loss history: main.cu
line 301 applied to the current window contents and the total sample
count. -/
def is_stable (h : LossHistory) : Bool :=
  monitorStable h.samples h.window

/-- Spec-side definition, following the specification text only: the
population variance of v, the mean of squared deviations from the
mean (divisor = count, not count - 1). -/
def specPopVariance (v : List ℚ) : ℚ :=
  (v.map (fun x => (x - v.sum / (v.length : ℚ)) ^ 2)).sum / (v.length : ℚ)

/-- Spec-side predicate, following the specification text: the
population standard deviation of v is defined and lies below t.
Phrased through the variance to stay inside ℚ: for nonempty v and
positive t, sqrt (specPopVariance v) < t iff specPopVariance v < t^2;
for the empty list the standard deviation is undefined (the spec calls
dispersion undefined below 2 samples) and hence not below t. -/
def popStdDevBelow (v : List ℚ) (t : ℚ) : Prop :=
  v ≠ [] ∧ specPopVariance v < t ^ 2

/-- Observable actions of one pass of the render/training loop body,
main.cu lines 288-331. -/
inductive Event
  | progress
  | slow
  | tryAcquire
  | deleteMarker
  | reloadCall
  | reloadDone
  | releaseLockE
  | warnLock
  | errorLog
deriving DecidableEq

/-- Inputs of one loop iteration: which flags were configured, the
marker-path argument (none when the --change flag was not given), the
loss statistics of the testbed, and the environment outcomes (marker
existence per path, flock availability, whether load_training_data
throws). -/
structure IterEnv where
  lockFlag : Bool
  sceneFlag : Bool
  changeArg : Option String
  samples : ℕ
  lossGraph : List ℚ
  markerExists : String → Bool
  lockAvailable : Bool
  reloadThrows : Bool

/-- The marker path used at main.cu line 313: get(change_flag) returns
the stored value, which for an unmatched ValueFlag of strings is the
default-constructed empty string. -/
def changePathOf (e : IterEnv) : String :=
  match e.changeArg with
  | some s => s
  | none => ""

/-- The guard on main.cu line 301: lock flag set, scene flag set,
sample count above the window size, and the standard deviation of the
first differences below 0.10. -/
def stabilityCond (e : IterEnv) : Bool :=
  e.lockFlag && e.sceneFlag && monitorStable e.samples e.lossGraph

/-- Event trace of one iteration of the loop body, main.cu lines
288-331, plus whether the iteration ended by throwing.  Progress is
always printed; when the line-301 guard holds the slow-training notice
is printed and tryGetLock is attempted; with the lock held, a present
marker is deleted and then load_training_data is invoked — if that call
throws, the exception propagates before releaseLock runs; otherwise
the elapsed time is logged and the lock released; with the marker
absent the lock is released directly; without the lock a warning is
printed. -/
def iterEvents (e : IterEnv) : List Event × Bool :=
  if stabilityCond e then
    if e.lockAvailable then
      if e.markerExists (changePathOf e) then
        if e.reloadThrows then
          ([Event.progress, Event.slow, Event.tryAcquire,
            Event.deleteMarker, Event.reloadCall], true)
        else
          ([Event.progress, Event.slow, Event.tryAcquire,
            Event.deleteMarker, Event.reloadCall, Event.reloadDone,
            Event.releaseLockE], false)
      else
        ([Event.progress, Event.slow, Event.tryAcquire,
          Event.releaseLockE], false)
    else
      ([Event.progress, Event.slow, Event.tryAcquire,
        Event.warnLock], false)
  else
    ([Event.progress], false)

/-- The while loop of main.cu lines 288-331 inside the try block of
lines 185-335: the iterations the frame call permits are consumed in
order; an iteration that throws reaches the outer catch, which logs
the uncaught exception and returns 1; when the frame call ends the
loop, main falls through with exit code 0. -/
def runLoop : List IterEnv → List Event × Int
  | [] => ([], 0)
  | e :: rest =>
    let r := iterEvents e
    if r.2 then (r.1 ++ [Event.errorLog], 1)
    else
      let rr := runLoop rest
      (r.1 ++ rr.1, rr.2)

/-- Strict ordering of two (distinct, uniquely occurring) events in a
trace: both occur and the first occurrence of a precedes the first
occurrence of b. -/
def occursBefore (l : List Event) (a b : Event) : Prop :=
  a ∈ l ∧ b ∈ l ∧ l.indexOf a < l.indexOf b

instance (l : List Event) (a b : Event) : Decidable (occursBefore l a b) :=
  inferInstanceAs (Decidable (a ∈ l ∧ b ∈ l ∧ l.indexOf a < l.indexOf b))

/-- A concrete stable iteration in which the marker is present, the
lock is free, and the dataset reload throws. -/
def envReloadThrows : IterEnv :=
  { lockFlag := true
    sceneFlag := true
    changeArg := some "/tmp/change"
    samples := 4
    lossGraph := [1, 1, 1]
    markerExists := fun _ => true
    lockAvailable := true
    reloadThrows := true }

/-- The same iteration inputs with a reload that succeeds; used as the
would-be next iteration after a throwing one. -/
def envAfter : IterEnv :=
  { envReloadThrows with reloadThrows := false }

/-- A stable iteration with the lock free and no marker on disk. -/
def envNoMarker : IterEnv :=
  { envReloadThrows with markerExists := fun _ => false, reloadThrows := false }

/-- A stable iteration in which the --change flag was never supplied:
the marker path defaults to the empty string, which does not exist. -/
def envNoChangeFlag : IterEnv :=
  { lockFlag := true
    sceneFlag := true
    changeArg := none
    samples := 4
    lossGraph := [1, 1, 1]
    markerExists := fun _ => false
    lockAvailable := true
    reloadThrows := false }

/-- A loss history during warm-up: capacity 1, a single sample. -/
def historyWarmup : LossHistory := ⟨1, 1, [3], by decide⟩

theorem standardDevationSq_eq_spec (v : List ℚ) :
    standardDevationSq v = specPopVariance v := by
  simp only [standardDevationSq, specPopVariance, List.map_map, Function.comp_def, pow_two]

theorem eqci_excl (a b c : String)
    (hbc : b.data.map Char.toLower ≠ c.data.map Char.toLower)
    (h : equals_case_insensitive a b = true) :
    equals_case_insensitive a c = false := by
  unfold equals_case_insensitive at h ⊢
  have hab := eq_of_beq h
  rw [hab]
  exact beq_eq_false_iff_ne.mpr hbc

theorem firstDiffs_nil_of_short (v : List ℚ) (hv : v.length < 2) :
    firstDiffs v = [] := by
  rcases v with _ | ⟨a, _ | ⟨b, t⟩⟩
  · rfl
  · rfl
  · simp at hv
    omega

/-- C8: releasing a lock handle that was never acquired — the not-held
handle, a negative file descriptor — is a no-op on the descriptor
table, cannot raise (releaseLock is a total function mirroring the
void C function that returns before touching the descriptor), and is
idempotent on such a handle. -/
theorem C8_release_never_acquired_noop (fd : Int) (openFds : List Int)
    (h : fd < 0) :
    releaseLock fd openFds = openFds ∧
    releaseLock fd (releaseLock fd openFds) = releaseLock fd openFds := by
  simp [releaseLock, h]

/-- Witness for C8 at the concrete failed-acquisition handle -1. -/
theorem C8_release_never_acquired_noop_witness :
    (-1 : Int) < 0 ∧ releaseLock (-1) [3, 4] = [3, 4] :=
  ⟨by decide, (C8_release_never_acquired_noop (-1) [3, 4] (by decide)).1⟩

/-- C9: mode inference maps every directory to Nerf regardless of the
extension of the directory name, because the directory test is part of
the first condition of the if chain. -/
theorem C9_directory_always_nerf (p : ScenePath) (h : p.is_directory = true) :
    inferMode p = ETestbedMode.Nerf := by
  simp [inferMode, h]

/-- Witness for C9: a directory named mesh.obj (extension obj) infers
as Nerf, not Sdf. -/
theorem C9_directory_always_nerf_witness :
    (ScenePath.mk true true "obj").is_directory = true ∧
    inferMode (ScenePath.mk true true "obj") = ETestbedMode.Nerf :=
  ⟨rfl, C9_directory_always_nerf (ScenePath.mk true true "obj") rfl⟩

/-- C5: when no explicit mode is given, the mode is inferred from the
scene path by the ordered tests of main.cu lines 199-207: a directory
or a json extension resolves to Nerf; an obj or stl extension of a
non-directory to Sdf; an nvdb extension of a non-directory to Volume;
any other non-directory path to Image. -/
theorem C5_mode_inference (p : ScenePath) :
    (p.is_directory = true → inferMode p = ETestbedMode.Nerf) ∧
    (equals_case_insensitive p.extension "json" = true →
      inferMode p = ETestbedMode.Nerf) ∧
    (p.is_directory = false →
      (equals_case_insensitive p.extension "obj" = true ∨
        equals_case_insensitive p.extension "stl" = true) →
      inferMode p = ETestbedMode.Sdf) ∧
    (p.is_directory = false →
      equals_case_insensitive p.extension "nvdb" = true →
      inferMode p = ETestbedMode.Volume) ∧
    (p.is_directory = false →
      equals_case_insensitive p.extension "json" = false →
      equals_case_insensitive p.extension "obj" = false →
      equals_case_insensitive p.extension "stl" = false →
      equals_case_insensitive p.extension "nvdb" = false →
      inferMode p = ETestbedMode.Image) := by
  refine ⟨fun h => by simp [inferMode, h], fun h => by simp [inferMode, h],
    fun hd h => ?_, fun hd h => ?_, fun hd h1 h2 h3 h4 => ?_⟩
  · rcases h with h | h
    · have hj := eqci_excl p.extension "obj" "json" (by decide) h
      simp [inferMode, hd, hj, h]
    · have hj := eqci_excl p.extension "stl" "json" (by decide) h
      simp [inferMode, hd, hj, h]
  · have hj := eqci_excl p.extension "nvdb" "json" (by decide) h
    have ho := eqci_excl p.extension "nvdb" "obj" (by decide) h
    have hs := eqci_excl p.extension "nvdb" "stl" (by decide) h
    simp [inferMode, hd, hj, ho, hs, h]
  · simp [inferMode, hd, h1, h2, h3, h4]

/-- Witness for C5, the scenario of the spec: a directory resolves to
Nerf, mesh.obj to Sdf, grid.nvdb to Volume, photo.png to Image. -/
theorem C5_mode_inference_witness :
    inferMode (ScenePath.mk true true "") = ETestbedMode.Nerf ∧
    inferMode (ScenePath.mk true false "obj") = ETestbedMode.Sdf ∧
    inferMode (ScenePath.mk true false "nvdb") = ETestbedMode.Volume ∧
    inferMode (ScenePath.mk true false "png") = ETestbedMode.Image :=
  ⟨(C5_mode_inference (ScenePath.mk true true "")).1 rfl,
   (C5_mode_inference (ScenePath.mk true false "obj")).2.2.1 rfl (Or.inl (by decide)),
   (C5_mode_inference (ScenePath.mk true false "nvdb")).2.2.2.1 rfl (by decide),
   (C5_mode_inference (ScenePath.mk true false "png")).2.2.2.2 rfl
     (by decide) (by decide) (by decide) (by decide)⟩

/-- C6: a loss history containing fewer than 2 samples — fewer than 2
samples ever recorded, or equivalently during warm-up a window holding
fewer than 2 entries — is never judged stable, so a reload is never
triggered during warm-up. -/
theorem C6_warmup_never_stable (h : LossHistory)
    (hs : h.samples < 2 ∨ h.window.length < 2) :
    is_stable h = false := by
  have hinv := h.ring_inv
  have hw : h.window.length < 2 := by omega
  have hd : firstDiffs h.window = [] := firstDiffs_nil_of_short h.window hw
  simp [is_stable, monitorStable, standardDevationLt, hd]

/-- Witness for C6 at a concrete single-sample history. -/
theorem C6_warmup_never_stable_witness :
    (historyWarmup.samples < 2 ∨ historyWarmup.window.length < 2) ∧
    is_stable historyWarmup = false :=
  ⟨Or.inl (by decide), C6_warmup_never_stable historyWarmup (Or.inl (by decide))⟩

/-- C3: the stability verdict of the monitor holds iff the total
number of samples ever observed strictly exceeds the window capacity
and the population standard deviation (divisor = count) of the first
differences of the current window is defined and below 0.10. -/
theorem C3_stability_verdict_iff (h : LossHistory) :
    is_stable h = true ↔
      (h.capacity < h.samples ∧
        popStdDevBelow (firstDiffs h.window) (1 / 10)) := by
  have hinv := h.ring_inv
  have hgate : (h.samples > h.window.length) ↔ (h.capacity < h.samples) := by
    omega
  simp only [is_stable, monitorStable, standardDevationLt, Bool.and_eq_true,
    decide_eq_true_eq, Bool.not_eq_true', popStdDevBelow,
    standardDevationSq_eq_spec, List.isEmpty_eq_false, ne_eq]
  rw [hgate]

/-- C7: the startup phase of main.cu fails — fatally, before the loop
begins, with exit code 1 — exactly when an explicit mode string matches
none of the four known names case-insensitively (InvalidMode), or
neither a mode nor a scene path is supplied (MissingInput), or a
supplied scene path does not exist (PathNotFound); and each of the
three conditions yields its named error (with the explicit-mode check
taking precedence over the scene-path check). -/
theorem C7_startup_failure_taxonomy (mf : Option String) (sf : Option ScenePath) :
    (isErr (resolveStartup mf sf) = true ↔
      ((∃ s, mf = some s ∧ parseModeString s = none) ∨
        (mf = none ∧ sf = none) ∨
        (∃ p, sf = some p ∧ p.pathExists = false))) ∧
    (isErr (resolveStartup mf sf) = true → startupExitCode mf sf ≠ 0) ∧
    (mf = none → sf = none →
      resolveStartup mf sf = Except.error ConfigError.MissingInput) ∧
    (∀ s, mf = some s → parseModeString s = none →
      resolveStartup mf sf = Except.error ConfigError.InvalidMode) ∧
    (∀ p, sf = some p → p.pathExists = false →
      (∀ s, mf = some s → parseModeString s ≠ none) →
      resolveStartup mf sf = Except.error ConfigError.PathNotFound) := by
  rcases mf with _ | s
  · rcases sf with _ | p
    · simp [resolveStartup, resolveModePhase, sceneCheckPhase, isErr,
        startupExitCode, Except.bind]
    · by_cases hp : p.pathExists = true
      · simp [resolveStartup, resolveModePhase, sceneCheckPhase, isErr,
          startupExitCode, Except.bind, hp]
      · rw [Bool.not_eq_true] at hp
        simp [resolveStartup, resolveModePhase, sceneCheckPhase, isErr,
          startupExitCode, Except.bind, hp]
  · rcases hps : parseModeString s with _ | m
    · rcases sf with _ | p
      · simp [resolveStartup, resolveModePhase, sceneCheckPhase, isErr,
          startupExitCode, Except.bind, hps]
      · simp [resolveStartup, resolveModePhase, sceneCheckPhase, isErr,
          startupExitCode, Except.bind, hps]
    · rcases sf with _ | p
      · simp [resolveStartup, resolveModePhase, sceneCheckPhase, isErr,
          startupExitCode, Except.bind, hps]
      · by_cases hp : p.pathExists = true
        · simp [resolveStartup, resolveModePhase, sceneCheckPhase, isErr,
            startupExitCode, Except.bind, hps, hp]
        · rw [Bool.not_eq_true] at hp
          simp [resolveStartup, resolveModePhase, sceneCheckPhase, isErr,
            startupExitCode, Except.bind, hps, hp]

/-- Witness for C7: each of the three failure conditions at a concrete
input, with its named error. -/
theorem C7_startup_failure_taxonomy_witness :
    resolveStartup none none = Except.error ConfigError.MissingInput ∧
    resolveStartup (some "foo") none = Except.error ConfigError.InvalidMode ∧
    resolveStartup none (some (ScenePath.mk false false "json")) =
      Except.error ConfigError.PathNotFound :=
  ⟨(C7_startup_failure_taxonomy none none).2.2.1 rfl rfl,
   (C7_startup_failure_taxonomy (some "foo") none).2.2.2.1 "foo" rfl (by decide),
   (C7_startup_failure_taxonomy none (some (ScenePath.mk false false "json"))).2.2.2.2
     (ScenePath.mk false false "json") rfl rfl (fun s hs => nomatch hs)⟩

/-- C1 counterexample: a concrete stable iteration with the lock held,
the marker present, and a reload call that throws.  The trigger deletes
the marker and invokes the reload, but the iteration contains no lock
release at all — the exception propagates past releaseLock — refuting
the part of the claim that says the lock release happens after the
reload call in every execution including failure. -/
theorem C1_counterexample :
    stabilityCond envReloadThrows = true ∧
    envReloadThrows.lockAvailable = true ∧
    envReloadThrows.markerExists (changePathOf envReloadThrows) = true ∧
    envReloadThrows.reloadThrows = true ∧
    Event.reloadCall ∈ (iterEvents envReloadThrows).1 ∧
    Event.releaseLockE ∉ (iterEvents envReloadThrows).1 := by
  decide

/-- C1 (amended): whenever the trigger finds the marker present under
a held lock it deletes the marker strictly before invoking the reload;
when the reload call returns, the lock release happens strictly after
it; but when the reload call throws, no lock release is executed and
the iteration ends by propagating the exception. -/
theorem C1_marker_before_reload (e : IterEnv)
    (hs : stabilityCond e = true) (hl : e.lockAvailable = true)
    (hm : e.markerExists (changePathOf e) = true) :
    occursBefore (iterEvents e).1 Event.deleteMarker Event.reloadCall ∧
    (e.reloadThrows = false →
      occursBefore (iterEvents e).1 Event.reloadCall Event.releaseLockE) ∧
    (e.reloadThrows = true →
      Event.releaseLockE ∉ (iterEvents e).1 ∧ (iterEvents e).2 = true) := by
  cases hr : e.reloadThrows <;>
    simp [iterEvents, hs, hl, hm, hr, occursBefore]

/-- Witness for C1 at a concrete succeeding reload. -/
theorem C1_marker_before_reload_witness :
    stabilityCond envAfter = true ∧
    occursBefore (iterEvents envAfter).1 Event.deleteMarker Event.reloadCall ∧
    occursBefore (iterEvents envAfter).1 Event.reloadCall Event.releaseLockE :=
  ⟨by decide,
   (C1_marker_before_reload envAfter (by decide) (by decide) (by decide)).1,
   (C1_marker_before_reload envAfter (by decide) (by decide) (by decide)).2.1
     (by decide)⟩

/-- C2 counterexample: in the concrete run whose first iteration has a
throwing reload, the recorded trace is exactly the first iteration
followed by the uncaught-exception log: the lock release never happens,
no second iteration runs (the loop does not continue), and the process
exits with status 1. -/
theorem C2_counterexample :
    envReloadThrows.reloadThrows = true ∧
    (runLoop [envReloadThrows, envAfter]).1 =
      [Event.progress, Event.slow, Event.tryAcquire, Event.deleteMarker,
        Event.reloadCall, Event.errorLog] ∧
    Event.releaseLockE ∉ (runLoop [envReloadThrows, envAfter]).1 ∧
    (runLoop [envReloadThrows, envAfter]).2 = 1 := by
  decide

/-- C2 (amended): if the dataset reload call raises, the exception
propagates out of the loop: the outer handler logs the error, the
process exits with status 1, no lock release is executed by the
program, and no further iteration runs. -/
theorem C2_reload_failure_aborts (e : IterEnv) (rest : List IterEnv)
    (hs : stabilityCond e = true) (hl : e.lockAvailable = true)
    (hm : e.markerExists (changePathOf e) = true) (hr : e.reloadThrows = true) :
    runLoop (e :: rest) = ((iterEvents e).1 ++ [Event.errorLog], 1) ∧
    Event.errorLog ∈ (runLoop (e :: rest)).1 ∧
    Event.releaseLockE ∉ (runLoop (e :: rest)).1 := by
  have h1 : iterEvents e =
      ([Event.progress, Event.slow, Event.tryAcquire, Event.deleteMarker,
        Event.reloadCall], true) := by
    simp [iterEvents, hs, hl, hm, hr]
  refine ⟨by simp [runLoop, h1], ?_, ?_⟩ <;> simp [runLoop, h1]

/-- Witness for C2 at the concrete throwing run. -/
theorem C2_reload_failure_aborts_witness :
    stabilityCond envReloadThrows = true ∧
    runLoop [envReloadThrows, envAfter] =
      ((iterEvents envReloadThrows).1 ++ [Event.errorLog], 1) :=
  ⟨by decide,
   (C2_reload_failure_aborts envReloadThrows [envAfter]
     (by decide) (by decide) (by decide) (by decide)).1⟩

/-- C4: in every iteration in which the change marker is absent the
trigger never deletes a file and never invokes the dataset reload, even
when the guard holds and the lock was acquired; and in that case the
lock is still released and no warning is emitted. -/
theorem C4_no_reload_when_marker_absent (e : IterEnv)
    (hm : e.markerExists (changePathOf e) = false) :
    Event.reloadCall ∉ (iterEvents e).1 ∧
    Event.deleteMarker ∉ (iterEvents e).1 ∧
    (stabilityCond e = true → e.lockAvailable = true →
      Event.releaseLockE ∈ (iterEvents e).1 ∧
      Event.warnLock ∉ (iterEvents e).1) := by
  cases hs : stabilityCond e <;> cases hl : e.lockAvailable <;>
    simp [iterEvents, hs, hl, hm]

/-- Witness for C4 at a concrete stable iteration with the lock free
and no marker. -/
theorem C4_no_reload_when_marker_absent_witness :
    envNoMarker.markerExists (changePathOf envNoMarker) = false ∧
    Event.reloadCall ∉ (iterEvents envNoMarker).1 ∧
    Event.releaseLockE ∈ (iterEvents envNoMarker).1 ∧
    Event.warnLock ∉ (iterEvents envNoMarker).1 :=
  ⟨by decide,
   (C4_no_reload_when_marker_absent envNoMarker (by decide)).1,
   ((C4_no_reload_when_marker_absent envNoMarker (by decide)).2.2
     (by decide) (by decide)).1,
   ((C4_no_reload_when_marker_absent envNoMarker (by decide)).2.2
     (by decide) (by decide)).2⟩

/-- C10: with the lock and scene flags configured but the --change flag
unset, the marker path defaults to the empty string, which never
exists, so the trigger still runs on stable iterations — acquiring the
lock and, when acquisition succeeds, releasing it — but never deletes
any file and never invokes a reload. -/
theorem C10_missing_change_flag (e : IterEnv)
    (_hlf : e.lockFlag = true) (_hsf : e.sceneFlag = true)
    (hc : e.changeArg = none) (he : e.markerExists "" = false) :
    Event.deleteMarker ∉ (iterEvents e).1 ∧
    Event.reloadCall ∉ (iterEvents e).1 ∧
    (stabilityCond e = true → Event.tryAcquire ∈ (iterEvents e).1) ∧
    (stabilityCond e = true → e.lockAvailable = true →
      Event.releaseLockE ∈ (iterEvents e).1) := by
  have hm : e.markerExists (changePathOf e) = false := by
    simp only [changePathOf, hc]
    exact he
  cases hs : stabilityCond e <;> cases hl : e.lockAvailable <;>
    simp [iterEvents, hs, hl, hm]

/-- Witness for C10 at a concrete stable iteration without the
--change flag. -/
theorem C10_missing_change_flag_witness :
    envNoChangeFlag.changeArg = none ∧
    stabilityCond envNoChangeFlag = true ∧
    Event.tryAcquire ∈ (iterEvents envNoChangeFlag).1 ∧
    Event.releaseLockE ∈ (iterEvents envNoChangeFlag).1 ∧
    Event.deleteMarker ∉ (iterEvents envNoChangeFlag).1 ∧
    Event.reloadCall ∉ (iterEvents envNoChangeFlag).1 :=
  ⟨rfl, by decide,
   (C10_missing_change_flag envNoChangeFlag rfl rfl rfl rfl).2.2.1 (by decide),
   (C10_missing_change_flag envNoChangeFlag rfl rfl rfl rfl).2.2.2
     (by decide) rfl,
   (C10_missing_change_flag envNoChangeFlag rfl rfl rfl rfl).1,
   (C10_missing_change_flag envNoChangeFlag rfl rfl rfl rfl).2.1⟩
